import Mathlib

/-!
Verification of `src/driftpy/clearing_house.py`: a thin client for the
on-chain "clearing house" program.  The module derives deterministic
program addresses, fetches and decodes on-chain accounts, and builds the
`initialize_user` / `deposit_collateral` instructions.

Modelling conventions:
* A public key is either an opaque base key (`PublicKey.base`) or a
  program-derived address (`PublicKey.pda seeds program_id`).  The
  platform's `find_program_address` is an external black box: the spec
  treats it as a deterministic, collision-avoided derivation, so it is
  modelled as the free constructor with a fixed bump nonce.
* Remote effects are made explicit: the RPC transport lives in the
  `Program` structure as response functions, and each operation returns
  its result paired with the list of remote events (fetches, sends) it
  performed, in order.
* Python exceptions become `Except Err`; an `await` whose fetch fails
  propagates the error, exactly as in the source.
* `Keypair()` draws fresh randomness; the freshly generated keypair is
  threaded in as an explicit parameter of the operation that generates it.
-/

/-- A public key: either an opaque key (wallets, platform constants,
arbitrary accounts) or a program-derived address obtained from seed
byte-strings and a program id. -/
inductive PublicKey where
  | base (n : Nat)
  | pda (seeds : List (List Nat)) (program_id : PublicKey)
deriving DecidableEq, Repr

/-- Injective code of a byte string, used to flatten a pda's seed list
into the "bytes" view of a key. -/
def natListCode : List Nat → Nat
  | [] => 0
  | a :: l => Nat.pair a (natListCode l) + 1

/-- Injective code of a seed list. -/
def seedsCode (seeds : List (List Nat)) : Nat :=
  natListCode (seeds.map natListCode)

/-- The byte representation of a public key (`bytes(authority)` on the
Python side).  Injective, as the platform's 32-byte representation is. -/
def PublicKey.bytes : PublicKey → List Nat
  | .base n => [0, n]
  | .pda seeds program_id => 1 :: seedsCode seeds :: program_id.bytes

/-- `PublicKey.find_program_address(seeds, program_id)`: the platform's
program-derived-address algorithm (seed bytes + program id → address +
bump nonce).  It is supplied by the platform library and treated as a
black box; the spec calls it deterministic and collision-avoided, so it
is modelled as the free constructor, with a fixed bump nonce. -/
def PublicKey.find_program_address (seeds : List (List Nat))
    (program_id : PublicKey) : PublicKey × Nat :=
  (PublicKey.pda seeds program_id, 255)

/-- `solana.system_program.SYS_PROGRAM_ID` (platform constant). -/
def SYS_PROGRAM_ID : PublicKey := .base 0

/-- `solana.sysvar.SYSVAR_RENT_PUBKEY` (platform constant). -/
def SYSVAR_RENT_PUBKEY : PublicKey := .base 1

/-- `spl.token.constants.TOKEN_PROGRAM_ID` (platform constant). -/
def TOKEN_PROGRAM_ID : PublicKey := .base 2

/-- The byte literal `b"clearing_house"` used as the seed of the state
address derivation (lines 41 and 99 of the source). -/
def CLEARING_HOUSE_SEED : List Nat := "clearing_house".data.map Char.toNat

/-- The user-scoped seed tag of the user-account derivation
(`driftpy.addresses`). -/
def USER_SEED : List Nat := "user".data.map Char.toNat

/-- `driftpy.types.StateAccount`, with the fields this module reads:
the seven dependent account addresses, the collateral vault, and the
whitelist mint mentioned by the disabled whitelist path. -/
structure StateAccount where
  markets : PublicKey
  trade_history : PublicKey
  deposit_history : PublicKey
  funding_payment_history : PublicKey
  funding_rate_history : PublicKey
  liquidation_history : PublicKey
  curve_history : PublicKey
  collateral_vault : PublicKey
  whitelist_mint : PublicKey
deriving DecidableEq, Repr

/-- `driftpy.types.MarketsAccount`: opaque decoded payload. -/
structure MarketsAccount where
  payload : Nat
deriving DecidableEq, Repr

/-- `driftpy.types.FundingPaymentHistoryAccount`: opaque decoded payload. -/
structure FundingPaymentHistoryAccount where
  payload : Nat
deriving DecidableEq, Repr

/-- `driftpy.types.FundingRateHistoryAccount`: opaque decoded payload. -/
structure FundingRateHistoryAccount where
  payload : Nat
deriving DecidableEq, Repr

/-- `driftpy.types.TradeHistoryAccount`: opaque decoded payload. -/
structure TradeHistoryAccount where
  payload : Nat
deriving DecidableEq, Repr

/-- `driftpy.types.LiquidationHistoryAccount`: opaque decoded payload. -/
structure LiquidationHistoryAccount where
  payload : Nat
deriving DecidableEq, Repr

/-- `driftpy.types.DepositHistoryAccount`: opaque decoded payload. -/
structure DepositHistoryAccount where
  payload : Nat
deriving DecidableEq, Repr

/-- `driftpy.types.CurveHistoryAccount`: opaque decoded payload. -/
structure CurveHistoryAccount where
  payload : Nat
deriving DecidableEq, Repr

/-- The errors this layer can surface: a failed remote fetch, a payload
that does not decode against the expected schema, and Python's
`AttributeError` (raised when a missing attribute is referenced). -/
inductive Err where
  | remoteFetchError (detail : Nat)
  | schemaMismatchError (detail : Nat)
  | attributeError (missing : String)
deriving DecidableEq, Repr

/-- `solana.keypair.Keypair` (only the public half matters here). -/
structure Keypair where
  public_key : PublicKey
deriving DecidableEq, Repr

/-- `program.type["InitializeUserOptionalAccounts"]`. -/
structure InitializeUserOptionalAccounts where
  whitelist_token : Bool
deriving DecidableEq, Repr

/-- The name and arguments of the instructions this module encodes. -/
inductive IxData where
  | initialize_user (user_account_nonce : Nat)
      (optional_accounts : InitializeUserOptionalAccounts)
  | deposit_collateral (amount : Int)
deriving DecidableEq, Repr

/-- An entry of a `remaining_accounts` list. -/
structure AccountMeta where
  pubkey : PublicKey
  is_writable : Bool
  is_signer : Bool
deriving DecidableEq, Repr

/-- `solana.transaction.TransactionInstruction`, as anchorpy builds it:
the instruction's coded arguments, the named-account map (in the order
the source's `accounts=` dict lists them), and the remaining accounts. -/
structure TransactionInstruction where
  ix_data : IxData
  accounts : List (String × PublicKey)
  remaining_accounts : List AccountMeta
deriving DecidableEq, Repr

/-- `solana.transaction.Transaction`: `Transaction().add(ix1, ix2)`
yields the instruction list `[ix1, ix2]`. -/
structure Transaction where
  instructions : List TransactionInstruction
deriving DecidableEq, Repr

/-- A remote event: one fetch of an account kind at an address, or one
submission of a transaction with a signer set. -/
inductive Event where
  | fetch (kind : String) (address : PublicKey)
  | send (tx : Transaction) (signers : List Keypair)
deriving DecidableEq, Repr

/-- The signing wallet of the provider. -/
structure Wallet where
  public_key : PublicKey

/-- `program.provider`: the RPC provider with its wallet; `send_result`
is the network's response to submitting a transaction with a signer
set. -/
structure Provider where
  wallet : Wallet
  send_result : Transaction → List Keypair → Except Err String

/-- `anchorpy.Program`: program id, provider, and — replacing the
source's dynamic `program.account["Name"].fetch` string lookup — one
typed response function per account kind, giving the remote ledger's
reply to a fetch at an address. -/
structure Program where
  program_id : PublicKey
  provider : Provider
  account_State : PublicKey → Except Err StateAccount
  account_Markets : PublicKey → Except Err MarketsAccount
  account_FundingPaymentHistory : PublicKey → Except Err FundingPaymentHistoryAccount
  account_FundingRateHistory : PublicKey → Except Err FundingRateHistoryAccount
  account_TradeHistory : PublicKey → Except Err TradeHistoryAccount
  account_LiquidationHistory : PublicKey → Except Err LiquidationHistoryAccount
  account_DepositHistory : PublicKey → Except Err DepositHistoryAccount
  account_CurveHistory : PublicKey → Except Err CurveHistoryAccount

/-- `ClearingHousePDAs` (lines 26-35): the immutable address bundle. -/
structure ClearingHousePDAs where
  state : PublicKey
  markets : PublicKey
  trade_history : PublicKey
  deposit_history : PublicKey
  funding_payment_history : PublicKey
  funding_rate_history : PublicKey
  liquidation_history : PublicKey
  curve_history : PublicKey
deriving DecidableEq, Repr

/-- `get_clearing_house_state_account_public_key_and_nonce` (lines
38-41): derive the state address and nonce from the program id with the
literal seed `b"clearing_house"`. -/
def get_clearing_house_state_account_public_key_and_nonce
    (program_id : PublicKey) : PublicKey × Nat :=
  PublicKey.find_program_address [CLEARING_HOUSE_SEED] program_id

/-- `_get_state_account` (lines 44-46): one fetch of the `State` account
at the given address; the decoded payload, or the fetch error,
propagates unchanged. -/
def _get_state_account (program : Program) (state_pubkey : PublicKey) :
    Except Err StateAccount × List Event :=
  (program.account_State state_pubkey, [.fetch "State" state_pubkey])

/-- `ClearingHouse` (line 49): a program handle plus the cached address
bundle, both set in `__init__` (lines 50-52). -/
structure ClearingHouse where
  program : Program
  pdas : ClearingHousePDAs

/-- `ClearingHouse._find_program_address` (lines 54-55). -/
def ClearingHouse._find_program_address (self : ClearingHouse)
    (seeds : List (List Nat)) : PublicKey × Nat :=
  PublicKey.find_program_address seeds self.program.program_id

/-- `ClearingHouse.get_state_account` (lines 57-59). -/
def ClearingHouse.get_state_account (self : ClearingHouse) :
    Except Err StateAccount × List Event :=
  _get_state_account self.program self.pdas.state

/-- `ClearingHouse.get_markets_account` (lines 61-63). -/
def ClearingHouse.get_markets_account (self : ClearingHouse) :
    Except Err MarketsAccount × List Event :=
  (self.program.account_Markets self.pdas.markets,
   [.fetch "Markets" self.pdas.markets])

/-- `ClearingHouse.get_funding_payment_history_account` (lines 65-69). -/
def ClearingHouse.get_funding_payment_history_account
    (self : ClearingHouse) :
    Except Err FundingPaymentHistoryAccount × List Event :=
  (self.program.account_FundingPaymentHistory self.pdas.funding_payment_history,
   [.fetch "FundingPaymentHistory" self.pdas.funding_payment_history])

/-- `ClearingHouse.get_funding_rate_history_account` (lines 71-75). -/
def ClearingHouse.get_funding_rate_history_account (self : ClearingHouse) :
    Except Err FundingRateHistoryAccount × List Event :=
  (self.program.account_FundingRateHistory self.pdas.funding_rate_history,
   [.fetch "FundingRateHistory" self.pdas.funding_rate_history])

/-- `ClearingHouse.get_trade_history_account` (lines 77-79). -/
def ClearingHouse.get_trade_history_account (self : ClearingHouse) :
    Except Err TradeHistoryAccount × List Event :=
  (self.program.account_TradeHistory self.pdas.trade_history,
   [.fetch "TradeHistory" self.pdas.trade_history])

/-- `ClearingHouse.get_liquidation_history_account` (lines 81-85). -/
def ClearingHouse.get_liquidation_history_account (self : ClearingHouse) :
    Except Err LiquidationHistoryAccount × List Event :=
  (self.program.account_LiquidationHistory self.pdas.liquidation_history,
   [.fetch "LiquidationHistory" self.pdas.liquidation_history])

/-- `ClearingHouse.get_deposit_history_account` (lines 87-91). -/
def ClearingHouse.get_deposit_history_account (self : ClearingHouse) :
    Except Err DepositHistoryAccount × List Event :=
  (self.program.account_DepositHistory self.pdas.deposit_history,
   [.fetch "DepositHistory" self.pdas.deposit_history])

/-- `ClearingHouse.get_curve_history_account` (lines 93-95). -/
def ClearingHouse.get_curve_history_account (self : ClearingHouse) :
    Except Err CurveHistoryAccount × List Event :=
  (self.program.account_CurveHistory self.pdas.curve_history,
   [.fetch "CurveHistory" self.pdas.curve_history])

/-- `ClearingHouse._get_state_pubkey` (lines 97-101). -/
def ClearingHouse._get_state_pubkey (program : Program) : PublicKey :=
  (PublicKey.find_program_address [CLEARING_HOUSE_SEED] program.program_id).1

/-- `ClearingHouse.create` (lines 103-117): derive the state address,
fetch the state account (a failed fetch is fatal to construction and
propagates), copy the seven dependent addresses out of the fetched state
into the bundle, and return the client. -/
def ClearingHouse.create (program : Program) :
    Except Err ClearingHouse × List Event :=
  let state_pubkey := ClearingHouse._get_state_pubkey program
  match _get_state_account program state_pubkey with
  | (.error e, log) => (.error e, log)
  | (.ok state, log) =>
      (.ok { program := program
             pdas := { state := state_pubkey
                       markets := state.markets
                       trade_history := state.trade_history
                       deposit_history := state.deposit_history
                       funding_payment_history := state.funding_payment_history
                       funding_rate_history := state.funding_rate_history
                       liquidation_history := state.liquidation_history
                       curve_history := state.curve_history } }, log)

/-- Modelled from the spec: `get_user_account_public_key_and_nonce` is
imported from `driftpy.addresses`, a repository module not under `src/`.
The spec (§4.1) describes it as a program-derived-address derivation
whose seed is a user-scoped tag plus the authority's public key bytes. -/
def get_user_account_public_key_and_nonce (program_id : PublicKey)
    (authority_public_key : PublicKey) : PublicKey × Nat :=
  PublicKey.find_program_address
    [USER_SEED, authority_public_key.bytes] program_id

/-- `ClearingHouse.get_user_account_public_key` (lines 215-218). -/
def ClearingHouse.get_user_account_public_key (self : ClearingHouse) :
    PublicKey :=
  (get_user_account_public_key_and_nonce self.program.program_id
    self.program.provider.wallet.public_key).1

/-- `ClearingHouse.get_initialize_user_instructions` (lines 119-164).
`user_positions` is the keypair the source draws fresh with `Keypair()`
(line 148), threaded in as the nondeterminism parameter.  The whitelist
discovery branch (lines 131-146) is commented out in the source:
`remaining_accounts` stays empty and `whitelist_token` stays false. -/
def ClearingHouse.get_initialize_user_instructions (self : ClearingHouse)
    (user_positions : Keypair) :
    (Keypair × PublicKey × TransactionInstruction) × List Event :=
  let derived := get_user_account_public_key_and_nonce
    self.program.program_id self.program.provider.wallet.public_key
  let user_public_key := derived.1
  let user_account_nonce := derived.2
  let remaining_accounts : List AccountMeta := []
  let optional_accounts : InitializeUserOptionalAccounts :=
    { whitelist_token := false }
  let initialize_user_account_ix : TransactionInstruction :=
    { ix_data := .initialize_user user_account_nonce optional_accounts
      accounts := [("user", user_public_key),
        ("authority", self.program.provider.wallet.public_key),
        ("rent", SYSVAR_RENT_PUBKEY),
        ("system_program", SYS_PROGRAM_ID),
        ("user_positions", user_positions.public_key),
        ("state", self.pdas.state)]
      remaining_accounts := remaining_accounts }
  ((user_positions, user_public_key, initialize_user_account_ix), [])

/-- `ClearingHouse.get_deposit_collateral_instruction` (lines 166-193).
When the positions key is omitted, line 174 evaluates
`self.get_user_account`, an attribute `ClearingHouse` does not define:
the call raises `AttributeError` before any fetch happens.  With the
positions key supplied, the method fetches the state account fresh and
takes the vault, markets and history addresses from that fetch, while
the `state` entry comes from the cached bundle. -/
def ClearingHouse.get_deposit_collateral_instruction (self : ClearingHouse)
    (amount : Int) (collateral_account_public_key : PublicKey)
    (user_positions_account_public_key : Option PublicKey) :
    Except Err TransactionInstruction × List Event :=
  let user_account_public_key := self.get_user_account_public_key
  match user_positions_account_public_key with
  | none => (.error (.attributeError "get_user_account"), [])
  | some user_positions_account_public_key =>
      match self.get_state_account with
      | (.error e, log) => (.error e, log)
      | (.ok state, log) =>
          (.ok { ix_data := .deposit_collateral amount
                 accounts := [("state", self.pdas.state),
                   ("user", user_account_public_key),
                   ("collateral_vault", state.collateral_vault),
                   ("user_collateral_account", collateral_account_public_key),
                   ("authority", self.program.provider.wallet.public_key),
                   ("token_program", TOKEN_PROGRAM_ID),
                   ("markets", state.markets),
                   ("funding_payment_history", state.funding_payment_history),
                   ("deposit_history", state.deposit_history),
                   ("user_positions", user_positions_account_public_key)]
                 remaining_accounts := [] }, log)

/-- `ClearingHouse.initialize_user_account_and_deposit_collateral`
(lines 195-213): build the initialize-user instruction (generating the
fresh positions keypair), build the deposit-collateral instruction with
the new positions key supplied explicitly, put both into one
transaction, submit it signed with the positions keypair, and return the
signature with the user account address. -/
def ClearingHouse.initialize_user_account_and_deposit_collateral
    (self : ClearingHouse) (user_positions_fresh : Keypair) (amount : Int)
    (collateral_account_public_key : PublicKey) :
    Except Err (String × PublicKey) × List Event :=
  let built := self.get_initialize_user_instructions user_positions_fresh
  let user_positions_account := built.1.1
  let user_account_public_key := built.1.2.1
  let initialize_user_account_ix := built.1.2.2
  match self.get_deposit_collateral_instruction amount
      collateral_account_public_key (some user_positions_account.public_key) with
  | (.error e, log2) => (.error e, built.2 ++ log2)
  | (.ok deposit_collateral_ix, log2) =>
      let tx : Transaction :=
        { instructions := [initialize_user_account_ix, deposit_collateral_ix] }
      let sent := self.program.provider.send_result tx [user_positions_account]
      let log := built.2 ++ log2 ++ [.send tx [user_positions_account]]
      match sent with
      | .error e => (.error e, log)
      | .ok tx_sig => (.ok (tx_sig, user_account_public_key), log)

/-- An invocation of one of the client's methods, with its arguments
(fresh keypairs included, as nondeterminism parameters). -/
inductive Method where
  | get_state_account
  | get_markets_account
  | get_funding_payment_history_account
  | get_funding_rate_history_account
  | get_trade_history_account
  | get_liquidation_history_account
  | get_deposit_history_account
  | get_curve_history_account
  | get_user_account_public_key
  | get_initialize_user_instructions (user_positions : Keypair)
  | get_deposit_collateral_instruction (amount : Int)
      (collateral_account_public_key : PublicKey)
      (user_positions_account_public_key : Option PublicKey)
  | initialize_user_account_and_deposit_collateral
      (user_positions_fresh : Keypair) (amount : Int)
      (collateral_account_public_key : PublicKey)

/-- Run one method call, threading the receiver through the body: the
resulting client (no method body of the source assigns to `self`, so the
translation of each body returns the receiver it was given) together
with the remote events the call performed. -/
def runMethod (ch : ClearingHouse) : Method → ClearingHouse × List Event
  | .get_state_account => (ch, ch.get_state_account.2)
  | .get_markets_account => (ch, ch.get_markets_account.2)
  | .get_funding_payment_history_account =>
      (ch, ch.get_funding_payment_history_account.2)
  | .get_funding_rate_history_account =>
      (ch, ch.get_funding_rate_history_account.2)
  | .get_trade_history_account => (ch, ch.get_trade_history_account.2)
  | .get_liquidation_history_account =>
      (ch, ch.get_liquidation_history_account.2)
  | .get_deposit_history_account => (ch, ch.get_deposit_history_account.2)
  | .get_curve_history_account => (ch, ch.get_curve_history_account.2)
  | .get_user_account_public_key => (ch, [])
  | .get_initialize_user_instructions fresh =>
      (ch, (ch.get_initialize_user_instructions fresh).2)
  | .get_deposit_collateral_instruction amount cc upk =>
      (ch, (ch.get_deposit_collateral_instruction amount cc upk).2)
  | .initialize_user_account_and_deposit_collateral fresh amount cc =>
      (ch, (ch.initialize_user_account_and_deposit_collateral fresh amount cc).2)

/-- The byte-string code is injective. -/
theorem natListCode_inj : ∀ {l₁ l₂ : List Nat},
    natListCode l₁ = natListCode l₂ → l₁ = l₂
  | [], [], _ => rfl
  | [], _ :: _, h => by simp [natListCode] at h
  | _ :: _, [], h => by simp [natListCode] at h
  | a :: l₁, b :: l₂, h => by
      simp only [natListCode, Nat.add_right_cancel_iff, Nat.pair_eq_pair] at h
      rw [h.1, natListCode_inj h.2]

/-- The seed-list code is injective. -/
theorem seedsCode_inj {s₁ s₂ : List (List Nat)}
    (h : seedsCode s₁ = seedsCode s₂) : s₁ = s₂ :=
  List.map_injective_iff.mpr (fun _ _ hab => natListCode_inj hab)
    (natListCode_inj h)

/-- Two distinct public keys have distinct byte representations. -/
theorem PublicKey.bytes_inj : ∀ (a b : PublicKey),
    a.bytes = b.bytes → a = b
  | .base _, .base _, h => by
      simp only [PublicKey.bytes, List.cons.injEq, and_true, true_and] at h
      rw [h]
  | .base _, .pda _ _, h => by simp [PublicKey.bytes] at h
  | .pda _ _, .base _, h => by simp [PublicKey.bytes] at h
  | .pda s₁ p₁, .pda s₂ p₂, h => by
      simp only [PublicKey.bytes, List.cons.injEq, true_and] at h
      rw [seedsCode_inj h.1, PublicKey.bytes_inj p₁ p₂ h.2]

/-- A concrete state account with pairwise distinct sentinel addresses,
used to instantiate the theorems below. -/
def sampleState : StateAccount where
  markets := .base 10
  trade_history := .base 11
  deposit_history := .base 12
  funding_payment_history := .base 13
  funding_rate_history := .base 14
  liquidation_history := .base 15
  curve_history := .base 16
  collateral_vault := .base 17
  whitelist_mint := .base 18

/-- A concrete program handle whose transport answers every state fetch
with `sampleState`, every other fetch with a fixed payload, and every
submission with the signature `"sig1"`. -/
def sampleProgram : Program where
  program_id := .base 3
  provider :=
    { wallet := { public_key := .base 4 }
      send_result := fun _ _ => .ok "sig1" }
  account_State := fun _ => .ok sampleState
  account_Markets := fun _ => .ok { payload := 100 }
  account_FundingPaymentHistory := fun _ => .ok { payload := 101 }
  account_FundingRateHistory := fun _ => .ok { payload := 102 }
  account_TradeHistory := fun _ => .ok { payload := 103 }
  account_LiquidationHistory := fun _ => .ok { payload := 104 }
  account_DepositHistory := fun _ => .ok { payload := 105 }
  account_CurveHistory := fun _ => .ok { payload := 106 }

/-- A concrete client over `sampleProgram` with the bundle copied from
`sampleState`. -/
def sampleClearingHouse : ClearingHouse where
  program := sampleProgram
  pdas :=
    { state := ClearingHouse._get_state_pubkey sampleProgram
      markets := sampleState.markets
      trade_history := sampleState.trade_history
      deposit_history := sampleState.deposit_history
      funding_payment_history := sampleState.funding_payment_history
      funding_rate_history := sampleState.funding_rate_history
      liquidation_history := sampleState.liquidation_history
      curve_history := sampleState.curve_history }

/-- A second program handle: same program id as `sampleProgram`, but a
different signing wallet. -/
def sampleProgramOtherWallet : Program :=
  { sampleProgram with
      provider :=
        { wallet := { public_key := .base 5 }
          send_result := fun _ _ => .ok "sig1" } }

/-- A second client: same program id, different signing identity. -/
def sampleClearingHouseOtherWallet : ClearingHouse where
  program := sampleProgramOtherWallet
  pdas := sampleClearingHouse.pdas

theorem ClearingHouse.create_ok (program : Program) (state : StateAccount)
    (h : program.account_State (ClearingHouse._get_state_pubkey program) =
      .ok state) :
    ClearingHouse.create program =
      (.ok { program := program
             pdas := { state := ClearingHouse._get_state_pubkey program
                       markets := state.markets
                       trade_history := state.trade_history
                       deposit_history := state.deposit_history
                       funding_payment_history := state.funding_payment_history
                       funding_rate_history := state.funding_rate_history
                       liquidation_history := state.liquidation_history
                       curve_history := state.curve_history } },
       [.fetch "State" (ClearingHouse._get_state_pubkey program)]) := by
  unfold ClearingHouse.create _get_state_account
  simp only [h]

theorem ClearingHouse.get_deposit_collateral_instruction_ok
    (ch : ClearingHouse) (amount : Int) (cc upk : PublicKey)
    (state : StateAccount)
    (h : ch.program.account_State ch.pdas.state = .ok state) :
    ch.get_deposit_collateral_instruction amount cc (some upk) =
      (.ok { ix_data := .deposit_collateral amount
             accounts := [("state", ch.pdas.state),
               ("user", ch.get_user_account_public_key),
               ("collateral_vault", state.collateral_vault),
               ("user_collateral_account", cc),
               ("authority", ch.program.provider.wallet.public_key),
               ("token_program", TOKEN_PROGRAM_ID),
               ("markets", state.markets),
               ("funding_payment_history", state.funding_payment_history),
               ("deposit_history", state.deposit_history),
               ("user_positions", upk)]
             remaining_accounts := [] },
       [.fetch "State" ch.pdas.state]) := by
  unfold ClearingHouse.get_deposit_collateral_instruction
    ClearingHouse.get_state_account _get_state_account
  simp only [h]

/-- **C1.** For every state account returned by the construction-time
fetch, `create` yields a client whose bundle's seven dependent addresses
(markets and the six history logs) equal, field-for-field, the
corresponding fields of that fetched state account, and whose state
address is the one derived from the seed `"clearing_house"` and the
program id. -/
theorem create_bundle_matches_fetched_state (program : Program)
    (state : StateAccount)
    (h : program.account_State (ClearingHouse._get_state_pubkey program) =
      .ok state) :
    ∃ ch : ClearingHouse, (ClearingHouse.create program).1 = .ok ch ∧
      ch.pdas.markets = state.markets ∧
      ch.pdas.trade_history = state.trade_history ∧
      ch.pdas.deposit_history = state.deposit_history ∧
      ch.pdas.funding_payment_history = state.funding_payment_history ∧
      ch.pdas.funding_rate_history = state.funding_rate_history ∧
      ch.pdas.liquidation_history = state.liquidation_history ∧
      ch.pdas.curve_history = state.curve_history ∧
      ch.pdas.state = (PublicKey.find_program_address [CLEARING_HOUSE_SEED]
        program.program_id).1 := by
  refine ⟨{ program := program
            pdas := { state := ClearingHouse._get_state_pubkey program
                      markets := state.markets
                      trade_history := state.trade_history
                      deposit_history := state.deposit_history
                      funding_payment_history := state.funding_payment_history
                      funding_rate_history := state.funding_rate_history
                      liquidation_history := state.liquidation_history
                      curve_history := state.curve_history } },
    ?_, rfl, rfl, rfl, rfl, rfl, rfl, rfl, rfl⟩
  rw [ClearingHouse.create_ok program state h]

/-- Witness for C1 at the concrete fixtures. -/
theorem create_bundle_matches_fetched_state_applied :
    sampleProgram.account_State (ClearingHouse._get_state_pubkey sampleProgram) =
      .ok sampleState ∧
    (∃ ch : ClearingHouse, (ClearingHouse.create sampleProgram).1 = .ok ch ∧
      ch.pdas.markets = sampleState.markets ∧
      ch.pdas.trade_history = sampleState.trade_history ∧
      ch.pdas.deposit_history = sampleState.deposit_history ∧
      ch.pdas.funding_payment_history = sampleState.funding_payment_history ∧
      ch.pdas.funding_rate_history = sampleState.funding_rate_history ∧
      ch.pdas.liquidation_history = sampleState.liquidation_history ∧
      ch.pdas.curve_history = sampleState.curve_history ∧
      ch.pdas.state = (PublicKey.find_program_address [CLEARING_HOUSE_SEED]
        sampleProgram.program_id).1) :=
  ⟨rfl, create_bundle_matches_fetched_state sampleProgram sampleState rfl⟩

/-- **C2.** `initialize_user_account_and_deposit_collateral` submits one
transaction holding exactly the two instructions
`[initialize_user, deposit_collateral]` in that order, signed with the
freshly generated positions keypair, and returns the submitted
transaction's signature together with the user account address that
`get_user_account_public_key` yields for the same program id and signing
identity. -/
theorem initialize_user_account_and_deposit_collateral_two_instructions
    (ch : ClearingHouse) (fresh : Keypair) (amount : Int) (cc : PublicKey)
    (state : StateAccount) (sig : String)
    (hstate : ch.program.account_State ch.pdas.state = .ok state)
    (hsend : ∀ tx signers,
      ch.program.provider.send_result tx signers = .ok sig) :
    ∃ ix1 ix2 : TransactionInstruction,
      ch.initialize_user_account_and_deposit_collateral fresh amount cc =
        (.ok (sig, ch.get_user_account_public_key),
         [Event.fetch "State" ch.pdas.state,
          Event.send { instructions := [ix1, ix2] } [fresh]]) ∧
      (∃ nonce oa, ix1.ix_data = IxData.initialize_user nonce oa) ∧
      ix2.ix_data = IxData.deposit_collateral amount := by
  refine ⟨(ch.get_initialize_user_instructions fresh).1.2.2,
    { ix_data := .deposit_collateral amount
      accounts := [("state", ch.pdas.state),
        ("user", ch.get_user_account_public_key),
        ("collateral_vault", state.collateral_vault),
        ("user_collateral_account", cc),
        ("authority", ch.program.provider.wallet.public_key),
        ("token_program", TOKEN_PROGRAM_ID),
        ("markets", state.markets),
        ("funding_payment_history", state.funding_payment_history),
        ("deposit_history", state.deposit_history),
        ("user_positions", fresh.public_key)]
      remaining_accounts := [] }, ?_, ⟨_, _, rfl⟩, rfl⟩
  unfold ClearingHouse.initialize_user_account_and_deposit_collateral
  simp only [ClearingHouse.get_initialize_user_instructions]
  rw [ClearingHouse.get_deposit_collateral_instruction_ok ch amount cc
    fresh.public_key state hstate]
  simp only [hsend]
  rfl

/-- Witness for C2 at the concrete fixtures. -/
theorem initialize_user_account_and_deposit_collateral_two_instructions_applied :
    (sampleClearingHouse.program.account_State sampleClearingHouse.pdas.state =
      .ok sampleState) ∧
    (∀ tx signers, sampleClearingHouse.program.provider.send_result tx signers =
      .ok "sig1") ∧
    (∃ ix1 ix2 : TransactionInstruction,
      sampleClearingHouse.initialize_user_account_and_deposit_collateral
          { public_key := .base 30 } 1000 (.base 31) =
        (.ok ("sig1", sampleClearingHouse.get_user_account_public_key),
         [Event.fetch "State" sampleClearingHouse.pdas.state,
          Event.send { instructions := [ix1, ix2] }
            [{ public_key := .base 30 }]]) ∧
      (∃ nonce oa, ix1.ix_data = IxData.initialize_user nonce oa) ∧
      ix2.ix_data = IxData.deposit_collateral 1000) :=
  ⟨rfl, fun _ _ => rfl,
   initialize_user_account_and_deposit_collateral_two_instructions
     sampleClearingHouse { public_key := .base 30 } 1000 (.base 31)
     sampleState "sig1" rfl (fun _ _ => rfl)⟩

/-- **C3 (code bug).** When the positions key is omitted, the method
evaluates `self.get_user_account`, an attribute `ClearingHouse` does not
define: the call fails with `AttributeError` before performing any
fetch, instead of resolving the positions address by fetching the
caller's user account as the spec describes. -/
theorem get_deposit_collateral_instruction_omitted_attribute_error
    (ch : ClearingHouse) (amount : Int) (cc : PublicKey) :
    ch.get_deposit_collateral_instruction amount cc none =
      (.error (Err.attributeError "get_user_account"), []) := rfl

/-- **C4 counterexample.** A concrete call with the positions key
omitted performs no fetch at all — in particular none of the state
account — refuting the claim's "every call". -/
theorem deposit_collateral_omitted_no_state_fetch :
    (sampleClearingHouse.get_deposit_collateral_instruction 1000
      (.base 7) none).2 = [] ∧
    Event.fetch "State" sampleClearingHouse.pdas.state ∉
      (sampleClearingHouse.get_deposit_collateral_instruction 1000
        (.base 7) none).2 := by
  exact ⟨rfl, by simp [ClearingHouse.get_deposit_collateral_instruction]⟩

/-- **C4 (amended).** Every call with the positions key supplied
performs exactly one remote fetch, of the state account at the cached
state address, and the built instruction takes its collateral_vault,
markets, funding_payment_history and deposit_history entries from that
freshly fetched state, while its state entry is the cached bundle's
state address. -/
theorem deposit_collateral_uses_fresh_state (ch : ClearingHouse)
    (amount : Int) (cc upk : PublicKey) (state : StateAccount)
    (h : ch.program.account_State ch.pdas.state = .ok state) :
    ∃ ix : TransactionInstruction,
      ch.get_deposit_collateral_instruction amount cc (some upk) =
        (.ok ix, [Event.fetch "State" ch.pdas.state]) ∧
      ix.accounts = [("state", ch.pdas.state),
        ("user", ch.get_user_account_public_key),
        ("collateral_vault", state.collateral_vault),
        ("user_collateral_account", cc),
        ("authority", ch.program.provider.wallet.public_key),
        ("token_program", TOKEN_PROGRAM_ID),
        ("markets", state.markets),
        ("funding_payment_history", state.funding_payment_history),
        ("deposit_history", state.deposit_history),
        ("user_positions", upk)] :=
  ⟨_, ClearingHouse.get_deposit_collateral_instruction_ok ch amount cc upk
    state h, rfl⟩

/-- Witness for the amended C4 at the concrete fixtures. -/
theorem deposit_collateral_uses_fresh_state_applied :
    (sampleClearingHouse.program.account_State sampleClearingHouse.pdas.state =
      .ok sampleState) ∧
    (∃ ix : TransactionInstruction,
      sampleClearingHouse.get_deposit_collateral_instruction 1000 (.base 7)
          (some (.base 8)) =
        (.ok ix, [Event.fetch "State" sampleClearingHouse.pdas.state]) ∧
      ix.accounts = [("state", sampleClearingHouse.pdas.state),
        ("user", sampleClearingHouse.get_user_account_public_key),
        ("collateral_vault", sampleState.collateral_vault),
        ("user_collateral_account", .base 7),
        ("authority", sampleClearingHouse.program.provider.wallet.public_key),
        ("token_program", TOKEN_PROGRAM_ID),
        ("markets", sampleState.markets),
        ("funding_payment_history", sampleState.funding_payment_history),
        ("deposit_history", sampleState.deposit_history),
        ("user_positions", .base 8)]) :=
  ⟨rfl, deposit_collateral_uses_fresh_state sampleClearingHouse 1000
    (.base 7) (.base 8) sampleState rfl⟩

/-- **C5.** `get_initialize_user_instructions` performs no remote fetch
and returns the freshly generated positions keypair, the user account
address derived from the program id and the wallet's public key, and an
initialize_user instruction referencing exactly the derived user
address, the wallet authority, the rent sysvar, the system program, the
new positions public key and the cached state address, with
whitelist_token false and an empty remaining-accounts list (the
whitelist discovery path is not executed). -/
theorem get_initialize_user_instructions_local_encoding
    (ch : ClearingHouse) (fresh : Keypair) :
    ch.get_initialize_user_instructions fresh =
      ((fresh,
        (get_user_account_public_key_and_nonce ch.program.program_id
          ch.program.provider.wallet.public_key).1,
        { ix_data := IxData.initialize_user
            (get_user_account_public_key_and_nonce ch.program.program_id
              ch.program.provider.wallet.public_key).2
            { whitelist_token := false }
          accounts := [("user",
              (get_user_account_public_key_and_nonce ch.program.program_id
                ch.program.provider.wallet.public_key).1),
            ("authority", ch.program.provider.wallet.public_key),
            ("rent", SYSVAR_RENT_PUBKEY),
            ("system_program", SYS_PROGRAM_ID),
            ("user_positions", fresh.public_key),
            ("state", ch.pdas.state)]
          remaining_accounts := [] }), []) := rfl

/-- **C6.** Each of the eight read accessors takes only the receiver,
performs exactly one remote fetch, at the cached bundle address for its
account kind, and returns the transport's reply unchanged: the decoded
payload on success, and on failure the error itself, with no retry,
caching or suppression. -/
theorem read_accessors_one_fetch_and_propagate (ch : ClearingHouse) :
    ch.get_state_account =
      (ch.program.account_State ch.pdas.state,
       [Event.fetch "State" ch.pdas.state]) ∧
    ch.get_markets_account =
      (ch.program.account_Markets ch.pdas.markets,
       [Event.fetch "Markets" ch.pdas.markets]) ∧
    ch.get_funding_payment_history_account =
      (ch.program.account_FundingPaymentHistory
        ch.pdas.funding_payment_history,
       [Event.fetch "FundingPaymentHistory"
         ch.pdas.funding_payment_history]) ∧
    ch.get_funding_rate_history_account =
      (ch.program.account_FundingRateHistory ch.pdas.funding_rate_history,
       [Event.fetch "FundingRateHistory" ch.pdas.funding_rate_history]) ∧
    ch.get_trade_history_account =
      (ch.program.account_TradeHistory ch.pdas.trade_history,
       [Event.fetch "TradeHistory" ch.pdas.trade_history]) ∧
    ch.get_liquidation_history_account =
      (ch.program.account_LiquidationHistory ch.pdas.liquidation_history,
       [Event.fetch "LiquidationHistory" ch.pdas.liquidation_history]) ∧
    ch.get_deposit_history_account =
      (ch.program.account_DepositHistory ch.pdas.deposit_history,
       [Event.fetch "DepositHistory" ch.pdas.deposit_history]) ∧
    ch.get_curve_history_account =
      (ch.program.account_CurveHistory ch.pdas.curve_history,
       [Event.fetch "CurveHistory" ch.pdas.curve_history]) :=
  ⟨rfl, rfl, rfl, rfl, rfl, rfl, rfl, rfl⟩

/-- **C7.** The state-address derivation is deterministic in the program
id, and uses exactly the literal seed byte-string `"clearing_house"`. -/
theorem state_derivation_deterministic (program_id : PublicKey) :
    get_clearing_house_state_account_public_key_and_nonce program_id =
      get_clearing_house_state_account_public_key_and_nonce program_id ∧
    get_clearing_house_state_account_public_key_and_nonce program_id =
      PublicKey.find_program_address [CLEARING_HOUSE_SEED] program_id ∧
    CLEARING_HOUSE_SEED = "clearing_house".data.map Char.toNat :=
  ⟨rfl, rfl, rfl⟩

/-- **C8.** `get_user_account_public_key` is deterministic per (program
id, signing identity) pair, and two clients with the same program id but
distinct signing identities get distinct user account addresses. -/
theorem get_user_account_public_key_deterministic_and_injective :
    (∀ ch₁ ch₂ : ClearingHouse,
        ch₁.program.program_id = ch₂.program.program_id →
        ch₁.program.provider.wallet.public_key =
          ch₂.program.provider.wallet.public_key →
        ch₁.get_user_account_public_key = ch₂.get_user_account_public_key) ∧
    (∀ ch₁ ch₂ : ClearingHouse,
        ch₁.program.program_id = ch₂.program.program_id →
        ch₁.program.provider.wallet.public_key ≠
          ch₂.program.provider.wallet.public_key →
        ch₁.get_user_account_public_key ≠
          ch₂.get_user_account_public_key) := by
  constructor
  · intro ch₁ ch₂ hpid hw
    unfold ClearingHouse.get_user_account_public_key
      get_user_account_public_key_and_nonce
    rw [hpid, hw]
  · intro ch₁ ch₂ hpid hw hc
    unfold ClearingHouse.get_user_account_public_key
      get_user_account_public_key_and_nonce
      PublicKey.find_program_address at hc
    simp only [PublicKey.pda.injEq, List.cons.injEq, true_and,
      and_true] at hc
    exact hw (PublicKey.bytes_inj _ _ hc.1)

/-- Witness for C8 at the concrete fixtures. -/
theorem get_user_account_public_key_deterministic_and_injective_applied :
    sampleClearingHouse.get_user_account_public_key =
      sampleClearingHouse.get_user_account_public_key ∧
    sampleClearingHouse.get_user_account_public_key ≠
      sampleClearingHouseOtherWallet.get_user_account_public_key :=
  ⟨get_user_account_public_key_deterministic_and_injective.1
      sampleClearingHouse sampleClearingHouse rfl rfl,
   get_user_account_public_key_deterministic_and_injective.2
      sampleClearingHouse sampleClearingHouseOtherWallet rfl (by decide)⟩

/-- **C9.** No method mutates the client's own state: threading the
receiver through any method call (no body of the source assigns to
`self`) returns it with the program reference and the address bundle
unchanged. -/
theorem methods_leave_client_unchanged (ch : ClearingHouse) (m : Method) :
    (runMethod ch m).1.program = ch.program ∧
    (runMethod ch m).1.pdas = ch.pdas := by
  cases m <;> exact ⟨rfl, rfl⟩

/-- **C10.** The module's two state-address derivations agree:
`_get_state_pubkey` returns the first component of
`get_clearing_house_state_account_public_key_and_nonce` at the handle's
program id. -/
theorem state_pubkey_derivations_agree (program : Program) :
    ClearingHouse._get_state_pubkey program =
      (get_clearing_house_state_account_public_key_and_nonce
        program.program_id).1 := rfl
